import Mathlib

/-!
Shallow embedding of the cover-art cache coordinator
(src/library/coverartcache.cpp) together with theorems checking the
natural-language specification against it.

The coordinator state (the DAO collaborator pointers, the pending-update
queue `m_queueOfUpdates`, the in-flight set `m_runningIds`, and the global
`QPixmapCache`) is an explicit record.  Every operation returns its result,
the successor state, and a trace of collaborator calls and emitted signals,
so that claims about "no collaborator invoked" or "nothing dispatched" are
directly statable.  External routines (the DAOs, the image utilities, the
filesystem) are a record of functions supplied as an environment.
-/

namespace CoverArt

/-- Track identifiers are plain ints in the source; values below 1 are invalid. -/
abbrev TrackId := Int

abbrev Hash := String

abbrev Loc := String

/-- A QImage: `none` is a null image, `some d` carries opaque pixel data. -/
abbrev Img := Option Nat

/-- A QPixmap, same convention as `Img`. -/
abbrev Pixmap := Option Nat

/-- QSize as used by the source: a width/height pair. -/
structure QSize where
  width : Int
  height : Int
deriving DecidableEq, Repr

/-- QSize.isNull: both components are zero (the natural-size convention). -/
def QSize.isNull (s : QSize) : Bool :=
  s.width == 0 && s.height == 0

/-- The CoverInfo record handed to requestPixmap. -/
structure CoverInfo where
  trackId : TrackId
  coverLocation : Loc
  hash : Hash
  trackLocation : Loc
deriving DecidableEq, Repr

/-- CoverArtDAO::CoverArtInfo, the record handed to the async jobs. -/
structure CoverArtInfo where
  trackId : TrackId
  coverLocation : Loc
  hash : Hash
  trackLocation : Loc
  trackDirectory : String
  trackBaseName : String
  album : String
deriving DecidableEq, Repr

/-- CoverArtCache::FutureResult, the payload a finished job delivers. -/
structure FutureResult where
  trackId : TrackId
  coverLocation : Loc
  hash : Hash
  croppedSize : QSize
  issueRepaint : Bool
  img : Img
deriving DecidableEq, Repr

/-- One collaborator call or emitted signal, recorded in program order. -/
inductive Event where
  | getTrackLocation (trackId : TrackId)
  | extractEmbeddedCover (loc : Loc)
  | decodeImage (loc : Loc)
  | saveCoverArt (loc : Loc) (hash : Hash)
  | updateCoverArt (trackId : TrackId) (coverId : Int)
  | getCoverArtInfo (trackId : TrackId)
  | searchInTrackDirectory (dir : String) (base : String) (album : String)
  | saveCoverArtBatch (queue : List (TrackId × Loc × Hash))
  | updateCoverArtBatch (covers : List (TrackId × Int))
  | pixmapFound (trackId : TrackId) (pm : Pixmap)
  | requestRepaint
deriving DecidableEq, Repr

/-- An asynchronously dispatched job, as chosen by requestPixmap. -/
inductive Job where
  | search (info : CoverArtInfo) (croppedSize : QSize) (issueRepaint : Bool)
  | load (info : CoverArtInfo) (croppedSize : QSize) (issueRepaint : Bool)
deriving DecidableEq, Repr

/-- Whether a dispatched job is a search job. -/
def Job.isSearch : Job → Bool
  | .search _ _ _ => true
  | .load _ _ _ => false

/-- The coordinator state: collaborator presence flags, the pending-update
queue, the in-flight set and the pixmap cache (an association list keyed by
the string cache key; lookup takes the first match). -/
structure CacheState where
  coverArtDAO : Bool
  trackDAO : Bool
  queueOfUpdates : List (TrackId × Loc × Hash)
  runningIds : List TrackId
  pixmapCache : List (String × Pixmap)
deriving DecidableEq, Repr

/-- The environment of external routines the coordinator calls.  The image
utilities (src/library/coverartutils.h) are not part of the sources, so their
data-level behaviour is abstract functions here. -/
structure Env where
  getTrackLocation : TrackId → Loc
  extractEmbeddedCover : Loc → Img
  decodeImage : Loc → Img
  resizeData : Nat → Int → Nat
  cropData : Nat → QSize → Nat
  hashData : Nat → Hash
  fileExists : Loc → Bool
  saveCoverArt : Loc → Hash → Int
  getCoverArtInfo : TrackId → CoverArtInfo
  searchInTrackDirectory : String → String → String → Loc
  saveCoverArtBatch : List (TrackId × Loc × Hash) → List (TrackId × Int)

/-- Max side length images are resized to (kMaxCoverSize in the source). -/
def kMaxCoverSize : Int := 300

/-- Modelled from the spec: CoverArtUtils::maybeResizeImage (the utility lives
in src/library/coverartutils.h, which is outside the given sources) resizes an
image to the max bound; a null image stays null and a non-null image stays
non-null. -/
def maybeResizeImage (env : Env) (img : Img) (maxSide : Int) : Img :=
  img.map (fun d => env.resizeData d maxSide)

/-- Modelled from the spec: CoverArtUtils::cropImage (outside the given
sources) crops or scales an image to the requested size; nullness is
preserved. -/
def cropImage (env : Env) (img : Img) (size : QSize) : Img :=
  img.map (fun d => env.cropData d size)

/-- Modelled from the spec: CoverArtUtils::calculateHash (outside the given
sources); a null image hashes to the fixed empty-hash value. -/
def calculateHash (env : Env) (img : Img) : Hash :=
  match img with
  | none => ""
  | some d => env.hashData d

/-- Modelled from the spec: the Image Cache Store put operation
(QPixmapCache::insert); the new entry replaces any entry under the same key
and insertion is treated as accepted. -/
def cachePut (cache : List (String × Pixmap)) (key : String) (pm : Pixmap) :
    List (String × Pixmap) :=
  (key, pm) :: cache.filter (fun p => p.1 != key)

/-- The composite cache key string requestPixmap and the completion handlers
build: CoverArtCache_<hash>_<w>x<h>. -/
def cacheKeyFor (hash : Hash) (size : QSize) : String :=
  "CoverArtCache_" ++ hash ++ "_" ++ toString size.width ++ "x" ++ toString size.height

/-- CoverArtCache::changeCoverArt, translated line by line from the source.
Returns the bool result, the successor state and the event trace. -/
def changeCoverArt (env : Env) (st : CacheState) (trackId : TrackId)
    (newCoverLocation : Loc) : Bool × CacheState × List Event :=
  if trackId < 1 ∨ st.coverArtDAO = false ∨ st.trackDAO = false then
    (false, st, [])
  else
    let st1 := { st with queueOfUpdates := st.queueOfUpdates.filter (fun p => p.1 != trackId) }
    if newCoverLocation = "" then
      (true, st1, [Event.updateCoverArt trackId (-1)])
    else
      let imgEvs :=
        if newCoverLocation = "ID3TAG" then
          let trackLocation := env.getTrackLocation trackId
          (env.extractEmbeddedCover trackLocation,
           [Event.getTrackLocation trackId, Event.extractEmbeddedCover trackLocation])
        else
          (env.decodeImage newCoverLocation, [Event.decodeImage newCoverLocation])
      if imgEvs.1.isNone then
        (false, st1, imgEvs.2)
      else
        let img := maybeResizeImage env imgEvs.1 kMaxCoverSize
        let hash := calculateHash env img
        let coverId := env.saveCoverArt newCoverLocation hash
        let evs := imgEvs.2 ++ [Event.saveCoverArt newCoverLocation hash,
                                Event.updateCoverArt trackId coverId]
        match st1.pixmapCache.lookup hash with
        | some pixmap =>
          (true, st1, evs ++ [Event.pixmapFound trackId pixmap, Event.requestRepaint])
        | none =>
          let pixmap : Pixmap := img
          (true, { st1 with pixmapCache := cachePut st1.pixmapCache hash pixmap },
           evs ++ [Event.pixmapFound trackId pixmap, Event.requestRepaint])

/-- The pending-update override requestPixmap applies: if a PendingUpdate
exists for the track, its coverLocation and hash replace the request values. -/
def pendingOverride (st : CacheState) (info : CoverInfo) : CoverInfo :=
  match st.queueOfUpdates.lookup info.trackId with
  | some p => { info with coverLocation := p.1, hash := p.2 }
  | none => info

/-- CoverArtCache::requestPixmap, translated line by line from the source.
Returns the pixmap result, the successor state, the event trace and the
dispatched job, if any. -/
def requestPixmap (env : Env) (st : CacheState) (requestInfo : CoverInfo)
    (croppedSize : QSize) (onlyCached : Bool) (issueRepaint : Bool) :
    Pixmap × CacheState × List Event × Option Job :=
  if requestInfo.trackId < 1 ∨ st.coverArtDAO = false then
    (none, st, [], none)
  else if requestInfo.trackId ∈ st.runningIds then
    (none, st, [], none)
  else
    let info := pendingOverride st requestInfo
    let cacheKey := cacheKeyFor info.hash croppedSize
    match st.pixmapCache.lookup cacheKey with
    | some pixmap =>
      (pixmap, st,
       if issueRepaint then [] else [Event.pixmapFound info.trackId pixmap], none)
    | none =>
      if onlyCached then
        (none, st, [], none)
      else if info.hash = "" ∨
              (info.coverLocation ≠ "ID3TAG" ∧ env.fileExists info.coverLocation = false) then
        let coverInfo := env.getCoverArtInfo info.trackId
        (none, { st with runningIds := info.trackId :: st.runningIds },
         [Event.getCoverArtInfo info.trackId],
         some (Job.search coverInfo croppedSize issueRepaint))
      else
        let coverInfo : CoverArtInfo :=
          { trackId := info.trackId, coverLocation := info.coverLocation,
            hash := info.hash, trackLocation := info.trackLocation,
            trackDirectory := "", trackBaseName := "", album := "" }
        (none, { st with runningIds := info.trackId :: st.runningIds },
         [], some (Job.load coverInfo croppedSize issueRepaint))

/-- CoverArtCache::loadImage, the worker body of a load job: decode from the
trusted location, then resize to the max bound (natural size) or crop.  Pure
with respect to the coordinator state; returns the result and the trace of
utility calls. -/
def loadImage (env : Env) (coverInfo : CoverArtInfo) (croppedSize : QSize)
    (issueRepaint : Bool) : FutureResult × List Event :=
  let imgEvs :=
    if coverInfo.coverLocation = "ID3TAG" then
      (env.extractEmbeddedCover coverInfo.trackLocation,
       [Event.extractEmbeddedCover coverInfo.trackLocation])
    else
      (env.decodeImage coverInfo.coverLocation,
       [Event.decodeImage coverInfo.coverLocation])
  let img :=
    if croppedSize.isNull then maybeResizeImage env imgEvs.1 kMaxCoverSize
    else cropImage env imgEvs.1 croppedSize
  ({ trackId := coverInfo.trackId, coverLocation := coverInfo.coverLocation,
     hash := coverInfo.hash, croppedSize := croppedSize,
     issueRepaint := issueRepaint, img := img }, imgEvs.2)

/-- CoverArtCache::searchImage, the worker body of a search job: embedded
extraction first; only if that yields a null image is the track directory
searched.  The hash is recomputed from the resulting image. -/
def searchImage (env : Env) (coverInfo : CoverArtInfo) (croppedSize : QSize)
    (issueRepaint : Bool) : FutureResult × List Event :=
  let img0 := env.extractEmbeddedCover coverInfo.trackLocation
  let evs0 := [Event.extractEmbeddedCover coverInfo.trackLocation]
  let locImg1 :=
    if img0.isSome then ("ID3TAG", maybeResizeImage env img0 kMaxCoverSize)
    else (("" : Loc), img0)
  let locImgEvs2 :=
    if locImg1.2.isNone then
      let l := env.searchInTrackDirectory coverInfo.trackDirectory
                 coverInfo.trackBaseName coverInfo.album
      (l, maybeResizeImage env (env.decodeImage l) kMaxCoverSize,
       evs0 ++ [Event.searchInTrackDirectory coverInfo.trackDirectory
                  coverInfo.trackBaseName coverInfo.album,
                Event.decodeImage l])
    else
      (locImg1.1, locImg1.2, evs0)
  let hash := calculateHash env locImgEvs2.2.1
  let img :=
    if !croppedSize.isNull then cropImage env locImgEvs2.2.1 croppedSize
    else locImgEvs2.2.1
  ({ trackId := coverInfo.trackId, coverLocation := locImgEvs2.1, hash := hash,
     croppedSize := croppedSize, issueRepaint := issueRepaint, img := img },
   locImgEvs2.2.2)

/-- CoverArtCache::imageLoaded, the completion handler for load jobs: on a
cache miss AND a non-null result image, convert and insert; then notify and
remove the track from the in-flight set. -/
def imageLoaded (st : CacheState) (res : FutureResult) : CacheState × List Event :=
  let cacheKey := cacheKeyFor res.hash res.croppedSize
  let pixmap0 := (st.pixmapCache.lookup cacheKey).getD none
  let pmSt :=
    if pixmap0.isNone && res.img.isSome then
      (res.img, { st with pixmapCache := cachePut st.pixmapCache cacheKey res.img })
    else (pixmap0, st)
  let evs :=
    if res.issueRepaint then [Event.requestRepaint]
    else [Event.pixmapFound res.trackId pmSt.1]
  ({ pmSt.2 with runningIds := pmSt.2.runningIds.filter (fun i => i != res.trackId) }, evs)

/-- CoverArtCache::updateDB, the batched flush of the pending-update queue:
no-op when a collaborator is unset or when not forced and below the 500-entry
threshold; otherwise one batched save, one batched update, and the queue is
cleared. -/
def updateDB (env : Env) (st : CacheState) (forceUpdate : Bool) :
    CacheState × List Event :=
  if st.coverArtDAO = false ∨ st.trackDAO = false ∨
      (forceUpdate = false ∧ st.queueOfUpdates.length < 500) then
    (st, [])
  else
    let covers := env.saveCoverArtBatch st.queueOfUpdates
    ({ st with queueOfUpdates := [] },
     [Event.saveCoverArtBatch st.queueOfUpdates, Event.updateCoverArtBatch covers])

/-- CoverArtCache::imageFound, the completion handler for search jobs: on a
cache miss the (possibly null) image is converted and inserted with no
non-null check; a PendingUpdate is inserted only when none exists for the
track, triggering a threshold flush; finally the track leaves the in-flight
set. -/
def imageFound (env : Env) (st : CacheState) (res : FutureResult) :
    CacheState × List Event :=
  let cacheKey := cacheKeyFor res.hash res.croppedSize
  let pixmap0 := (st.pixmapCache.lookup cacheKey).getD none
  let pmSt :=
    if pixmap0.isNone then
      (res.img, { st with pixmapCache := cachePut st.pixmapCache cacheKey res.img })
    else (pixmap0, st)
  let evs :=
    if res.issueRepaint then [Event.requestRepaint]
    else [Event.pixmapFound res.trackId pmSt.1]
  let stEvs2 :=
    if (pmSt.2.queueOfUpdates.lookup res.trackId).isNone then
      updateDB env
        { pmSt.2 with queueOfUpdates :=
            pmSt.2.queueOfUpdates ++ [(res.trackId, res.coverLocation, res.hash)] }
        false
    else (pmSt.2, [])
  ({ stEvs2.1 with runningIds := stEvs2.1.runningIds.filter (fun i => i != res.trackId) },
   evs ++ stEvs2.2)

/-! ### Concrete fixtures used by witnesses and counterexamples -/

/-- A concrete environment: every path decodes to image data 7, hashing any
data yields "h7", resizing and cropping keep the data, every file exists. -/
def envX : Env :=
  { getTrackLocation := fun _ => "track.mp3",
    extractEmbeddedCover := fun _ => none,
    decodeImage := fun _ => some 7,
    resizeData := fun d _ => d,
    cropData := fun d _ => d,
    hashData := fun _ => "h7",
    fileExists := fun _ => true,
    saveCoverArt := fun _ _ => 42,
    getCoverArtInfo := fun i =>
      { trackId := i, coverLocation := "", hash := "", trackLocation := "",
        trackDirectory := "", trackBaseName := "", album := "" },
    searchInTrackDirectory := fun _ _ _ => "folder.jpg",
    saveCoverArtBatch := fun _ => [] }

/-- Like envX but every decode and extraction yields a null image. -/
def envNull : Env :=
  { envX with decodeImage := fun _ => none, extractEmbeddedCover := fun _ => none }

/-- Like envX but embedded extraction succeeds with data 9. -/
def envEmb : Env :=
  { envX with extractEmbeddedCover := fun _ => some 9 }

/-- Both collaborators set, everything else empty. -/
def stReady : CacheState :=
  { coverArtDAO := true, trackDAO := true, queueOfUpdates := [],
    runningIds := [], pixmapCache := [] }

/-- Collaborators set and a pending update queued for track 1. -/
def stPend1 : CacheState :=
  { stReady with queueOfUpdates := [(1, "old.jpg", "oldhash")], runningIds := [1] }

/-- Collaborators set and a pending update queued for track 5. -/
def stPend5 : CacheState :=
  { stReady with queueOfUpdates := [(5, "pend.jpg", "ph")] }

/-- Metadata store set but track store unset. -/
def stNoTrackDAO : CacheState :=
  { stReady with trackDAO := false }

/-- The natural-size target. -/
def szNull : QSize := { width := 0, height := 0 }

/-- A request record for track 5 whose hash matches what envX computes. -/
def infoX : CoverInfo :=
  { trackId := 5, coverLocation := "c.png", hash := "h7", trackLocation := "track.mp3" }

/-- A request record for track 3 with no known hash. -/
def infoC6 : CoverInfo :=
  { trackId := 3, coverLocation := "", hash := "", trackLocation := "t.mp3" }

/-- A search-job result for track 1 carrying a new discovery. -/
def resC2 : FutureResult :=
  { trackId := 1, coverLocation := "new.jpg", hash := "newhash",
    croppedSize := { width := 0, height := 0 }, issueRepaint := true, img := some 3 }

/-- A search-job result with a null image (no cover found). -/
def resNullImg : FutureResult :=
  { trackId := 2, coverLocation := "", hash := "",
    croppedSize := { width := 0, height := 0 }, issueRepaint := true, img := none }

/-- A concrete CoverArtInfo for the job-body theorems. -/
def ciX : CoverArtInfo :=
  { trackId := 4, coverLocation := "", hash := "", trackLocation := "t.mp3",
    trackDirectory := "dir", trackBaseName := "base", album := "alb" }

/-! ### Helper lemmas -/

/-- The flush never touches the pixmap cache. -/
theorem updateDB_pixmapCache (env : Env) (st : CacheState) (f : Bool) :
    (updateDB env st f).1.pixmapCache = st.pixmapCache := by
  unfold updateDB
  split <;> rfl

/-- The flush never touches the in-flight set. -/
theorem updateDB_runningIds (env : Env) (st : CacheState) (f : Bool) :
    (updateDB env st f).1.runningIds = st.runningIds := by
  unfold updateDB
  split <;> rfl

/-- The pending-update override never changes the track id. -/
theorem pendingOverride_trackId (st : CacheState) (info : CoverInfo) :
    (pendingOverride st info).trackId = info.trackId := by
  unfold pendingOverride
  split <;> rfl

/-! ### Claims -/

/-- C4 counterexample: a forced flush on an empty queue with both
collaborators set still performs two collaborator calls (a batched save and a
batched update, each with the empty batch), refuting the zero-calls claim. -/
theorem C4_counterexample :
    (updateDB envX stReady true).2 =
      [Event.saveCoverArtBatch [], Event.updateCoverArtBatch []] ∧
    (updateDB envX stReady true).2 ≠ [] := by decide

/-- C4 (amended): a forced flush with both collaborators set and an empty
queue performs exactly one batched save call and one batched update call,
each carrying the empty batch, and leaves the queue empty; it is not a
no-op. -/
theorem C4_amended_thm (env : Env) (st : CacheState)
    (h1 : st.coverArtDAO = true) (h2 : st.trackDAO = true)
    (h3 : st.queueOfUpdates = []) :
    updateDB env st true =
      ({ st with queueOfUpdates := [] },
       [Event.saveCoverArtBatch [], Event.updateCoverArtBatch (env.saveCoverArtBatch [])]) := by
  unfold updateDB
  rw [if_neg (by simp [h1, h2])]
  simp [h3]

/-- C4 witness: the amended statement at the concrete empty-queue state. -/
theorem C4_witness :
    updateDB envX stReady true =
      ({ stReady with queueOfUpdates := [] },
       [Event.saveCoverArtBatch [], Event.updateCoverArtBatch (envX.saveCoverArtBatch [])]) :=
  C4_amended_thm envX stReady rfl rfl rfl

/-- C2 counterexample: a search-job completion for track 1 carrying the new
discovery ("new.jpg", "newhash") leaves the existing PendingUpdate entry
("old.jpg", "oldhash") untouched instead of overwriting it. -/
theorem C2_counterexample :
    (imageFound envX stPend1 resC2).1.queueOfUpdates = [(1, "old.jpg", "oldhash")] ∧
    (imageFound envX stPend1 resC2).1.queueOfUpdates ≠ [(1, "new.jpg", "newhash")] := by
  decide

/-- C2 (amended): a search-job completion for a track that already has a
PendingUpdate entry leaves the pending queue entirely unchanged
(first-write-wins before flush); only tracks without an entry are inserted. -/
theorem C2_amended_thm (env : Env) (st : CacheState) (res : FutureResult)
    (h : (st.queueOfUpdates.lookup res.trackId).isSome = true) :
    (imageFound env st res).1.queueOfUpdates = st.queueOfUpdates := by
  cases hq : st.queueOfUpdates.lookup res.trackId with
  | none => rw [hq] at h; simp at h
  | some p =>
    by_cases hpm : (st.pixmapCache.lookup (cacheKeyFor res.hash res.croppedSize)).getD none = none
    · simp [imageFound, hq, hpm]
    · simp [imageFound, hq, hpm]

/-- C2 witness: the amended statement at the concrete pending state. -/
theorem C2_witness :
    (imageFound envX stPend1 resC2).1.queueOfUpdates = stPend1.queueOfUpdates :=
  C2_amended_thm envX stPend1 resC2 (by decide)

/-- C3 counterexample: changeCoverArt on track 5 with an undecodable location
returns false, yet the PendingUpdate entry for track 5 is gone afterwards, so
state was mutated. -/
theorem C3_counterexample :
    (changeCoverArt envNull stPend5 5 "bad.png").1 = false ∧
    (changeCoverArt envNull stPend5 5 "bad.png").2.1.queueOfUpdates = [] ∧
    stPend5.queueOfUpdates = [(5, "pend.jpg", "ph")] := by decide

/-- C3 (amended): when the decode attempt yields a null image, changeCoverArt
returns false, the image cache and persisted associations are untouched and
only the read-only decode calls occur, but the PendingUpdate entry for the
track has already been removed (the removal precedes the decode attempt). -/
theorem C3_amended_thm (env : Env) (st : CacheState) (trackId : TrackId) (loc : Loc)
    (h1 : 1 ≤ trackId) (h2 : st.coverArtDAO = true) (h3 : st.trackDAO = true)
    (h4 : loc ≠ "")
    (h5 : (if loc = "ID3TAG" then env.extractEmbeddedCover (env.getTrackLocation trackId)
           else env.decodeImage loc) = none) :
    changeCoverArt env st trackId loc =
      (false,
       { st with queueOfUpdates := st.queueOfUpdates.filter (fun p => p.1 != trackId) },
       if loc = "ID3TAG" then
         [Event.getTrackLocation trackId,
          Event.extractEmbeddedCover (env.getTrackLocation trackId)]
       else [Event.decodeImage loc]) := by
  have hguard : ¬(trackId < 1 ∨ st.coverArtDAO = false ∨ st.trackDAO = false) := by
    rintro (hc | hc | hc)
    · exact absurd hc (not_lt.mpr h1)
    · rw [h2] at hc; simp at hc
    · rw [h3] at hc; simp at hc
  unfold changeCoverArt
  rw [if_neg hguard]
  rw [if_neg h4]
  by_cases hid : loc = "ID3TAG"
  · rw [hid] at h5 ⊢
    simp at h5
    simp [h5]
  · rw [if_neg hid] at h5
    simp [h5, hid]

/-- C3 witness: the amended statement at the concrete undecodable input. -/
theorem C3_witness :
    changeCoverArt envNull stPend5 5 "bad.png" =
      (false,
       { stPend5 with queueOfUpdates :=
           stPend5.queueOfUpdates.filter (fun p => p.1 != (5 : TrackId)) },
       if ("bad.png" : String) = "ID3TAG" then
         [Event.getTrackLocation 5,
          Event.extractEmbeddedCover (envNull.getTrackLocation 5)]
       else [Event.decodeImage "bad.png"]) :=
  C3_amended_thm envNull stPend5 5 "bad.png" (by decide) (by decide) (by decide)
    (by decide) (by decide)

/-- C5 counterexample: a search-job completion whose image is null (no cover
found) still inserts into the image cache: starting from an empty cache, the
completion stores a null bitmap under the empty-hash natural-size key. -/
theorem C5_counterexample :
    (imageFound envX stReady resNullImg).1.pixmapCache =
      [("CoverArtCache__0x0", none)] ∧
    stReady.pixmapCache = [] := by decide

/-- C5 (amended): the load-job completion inserts into the image cache exactly
when the lookup misses and the result image is non-null, but the search-job
completion inserts on every miss regardless of image nullness, so a null-image
search completion does insert (a null bitmap). -/
theorem C5_amended_thm (env : Env) (st : CacheState) (res : FutureResult) :
    ((imageLoaded st res).1.pixmapCache =
      if ((st.pixmapCache.lookup (cacheKeyFor res.hash res.croppedSize)).getD none).isNone
          && res.img.isSome
      then cachePut st.pixmapCache (cacheKeyFor res.hash res.croppedSize) res.img
      else st.pixmapCache) ∧
    ((imageFound env st res).1.pixmapCache =
      if ((st.pixmapCache.lookup (cacheKeyFor res.hash res.croppedSize)).getD none).isNone
      then cachePut st.pixmapCache (cacheKeyFor res.hash res.croppedSize) res.img
      else st.pixmapCache) := by
  constructor
  · by_cases hpm : (((st.pixmapCache.lookup
        (cacheKeyFor res.hash res.croppedSize)).getD none).isNone
        && res.img.isSome) = true
    all_goals simp [imageLoaded, hpm]
  · by_cases hpm : (st.pixmapCache.lookup (cacheKeyFor res.hash res.croppedSize)).getD none = none
    all_goals by_cases hq : st.queueOfUpdates.lookup res.trackId = none
    all_goals simp [imageFound, hpm, hq, updateDB_pixmapCache]

/-- C9: for any trackId below 1, both entry points return empty or false
immediately with the state unchanged and an empty collaborator trace, and
requestPixmap also dispatches nothing. -/
theorem C9_thm (env : Env) (st : CacheState) (info : CoverInfo) (size : QSize)
    (onlyCached issueRepaint : Bool) (loc : Loc) (h : info.trackId < 1) :
    requestPixmap env st info size onlyCached issueRepaint = (none, st, [], none) ∧
    changeCoverArt env st info.trackId loc = (false, st, []) := by
  constructor
  · unfold requestPixmap
    rw [if_pos (Or.inl h)]
  · unfold changeCoverArt
    rw [if_pos (Or.inl h)]

/-- C9 witness: both rejections at the concrete invalid trackId 0. -/
theorem C9_witness :
    requestPixmap envX stReady
        { trackId := 0, coverLocation := "c.png", hash := "h", trackLocation := "t" }
        szNull false false = (none, stReady, [], none) ∧
    changeCoverArt envX stReady
        ({ trackId := 0, coverLocation := "c.png", hash := "h",
           trackLocation := "t" } : CoverInfo).trackId "c.png" = (false, stReady, []) :=
  C9_thm envX stReady
    { trackId := 0, coverLocation := "c.png", hash := "h", trackLocation := "t" }
    szNull false false "c.png" (by decide)

/-- A request for a track currently in the in-flight set returns the null
pixmap immediately, with no state change, no events and no dispatch. -/
theorem requestPixmap_inflight (env : Env) (st : CacheState) (info : CoverInfo)
    (size : QSize) (oc ir : Bool) (hmem : info.trackId ∈ st.runningIds) :
    requestPixmap env st info size oc ir = (none, st, [], none) := by
  unfold requestPixmap
  by_cases hg : info.trackId < 1 ∨ st.coverArtDAO = false
  · rw [if_pos hg]
  · rw [if_neg hg, if_pos hmem]

/-- A valid, not-in-flight, cache-missing, not-onlyCached request dispatches a
search or a load job according to the hash/location condition of the source. -/
theorem requestPixmap_dispatch (env : Env) (st : CacheState) (info : CoverInfo)
    (size : QSize) (ir : Bool)
    (h1 : 1 ≤ info.trackId) (h2 : st.coverArtDAO = true)
    (h3 : info.trackId ∉ st.runningIds)
    (hmiss : st.pixmapCache.lookup (cacheKeyFor (pendingOverride st info).hash size) = none) :
    requestPixmap env st info size false ir =
      if (pendingOverride st info).hash = "" ∨
          ((pendingOverride st info).coverLocation ≠ "ID3TAG" ∧
           env.fileExists (pendingOverride st info).coverLocation = false) then
        (none,
         { st with runningIds := (pendingOverride st info).trackId :: st.runningIds },
         [Event.getCoverArtInfo (pendingOverride st info).trackId],
         some (Job.search (env.getCoverArtInfo (pendingOverride st info).trackId) size ir))
      else
        (none,
         { st with runningIds := (pendingOverride st info).trackId :: st.runningIds },
         [],
         some (Job.load
           { trackId := (pendingOverride st info).trackId,
             coverLocation := (pendingOverride st info).coverLocation,
             hash := (pendingOverride st info).hash,
             trackLocation := (pendingOverride st info).trackLocation,
             trackDirectory := "", trackBaseName := "", album := "" } size ir)) := by
  have hguard : ¬(info.trackId < 1 ∨ st.coverArtDAO = false) := by
    rintro (hc | hc)
    · exact absurd hc (not_lt.mpr h1)
    · rw [h2] at hc; simp at hc
  unfold requestPixmap
  rw [if_neg hguard, if_neg h3]
  simp only [hmiss]
  simp

/-- C6: a request for a track in the in-flight set returns empty with no
state change, no events and no dispatch; consequently of two back-to-back
requests for the same valid uncached track the first dispatches a job and the
second is dropped with nothing dispatched or queued. -/
theorem C6_thm (env : Env) (st : CacheState) (info : CoverInfo) (size : QSize)
    (oc ir : Bool)
    (h1 : 1 ≤ info.trackId) (h2 : st.coverArtDAO = true)
    (hmiss : st.pixmapCache.lookup (cacheKeyFor (pendingOverride st info).hash size) = none) :
    (info.trackId ∈ st.runningIds →
      requestPixmap env st info size oc ir = (none, st, [], none)) ∧
    (info.trackId ∉ st.runningIds → oc = false →
      ((requestPixmap env st info size oc ir).2.2.2.isSome = true ∧
       requestPixmap env (requestPixmap env st info size oc ir).2.1 info size oc ir =
         (none, (requestPixmap env st info size oc ir).2.1, [], none))) := by
  constructor
  · intro hmem
    exact requestPixmap_inflight env st info size oc ir hmem
  · intro hmem hoc
    subst hoc
    have hdisp := requestPixmap_dispatch env st info size ir h1 h2 hmem hmiss
    by_cases hcond : (pendingOverride st info).hash = "" ∨
        ((pendingOverride st info).coverLocation ≠ "ID3TAG" ∧
         env.fileExists (pendingOverride st info).coverLocation = false)
    · rw [if_pos hcond] at hdisp
      rw [hdisp]
      refine ⟨rfl, ?_⟩
      apply requestPixmap_inflight
      simp [pendingOverride_trackId]
    · rw [if_neg hcond] at hdisp
      rw [hdisp]
      refine ⟨rfl, ?_⟩
      apply requestPixmap_inflight
      simp [pendingOverride_trackId]

/-- C6 witness: the back-to-back scenario at a concrete uncached track. -/
theorem C6_witness :
    ((requestPixmap envX stReady infoC6 szNull false false).2.2.2.isSome = true ∧
     requestPixmap envX (requestPixmap envX stReady infoC6 szNull false false).2.1
         infoC6 szNull false false =
       (none, (requestPixmap envX stReady infoC6 szNull false false).2.1, [], none)) :=
  (C6_thm envX stReady infoC6 szNull false false (by decide) (by decide) (by decide)).2
    (by decide) rfl

/-- C7: a validated, cache-missing, not-onlyCached request dispatches a job,
and that job is a search job exactly when the (pending-overridden) hash is
empty, or the location differs from the embedded sentinel and no file exists
there; otherwise it is a load job. -/
theorem C7_thm (env : Env) (st : CacheState) (info : CoverInfo) (size : QSize)
    (ir : Bool)
    (h1 : 1 ≤ info.trackId) (h2 : st.coverArtDAO = true)
    (h3 : info.trackId ∉ st.runningIds)
    (hmiss : st.pixmapCache.lookup (cacheKeyFor (pendingOverride st info).hash size) = none) :
    ∃ job, (requestPixmap env st info size false ir).2.2.2 = some job ∧
      (job.isSearch = true ↔
        ((pendingOverride st info).hash = "" ∨
         ((pendingOverride st info).coverLocation ≠ "ID3TAG" ∧
          env.fileExists (pendingOverride st info).coverLocation = false))) := by
  have hdisp := requestPixmap_dispatch env st info size ir h1 h2 h3 hmiss
  by_cases hcond : (pendingOverride st info).hash = "" ∨
      ((pendingOverride st info).coverLocation ≠ "ID3TAG" ∧
       env.fileExists (pendingOverride st info).coverLocation = false)
  · rw [if_pos hcond] at hdisp
    exact ⟨_, by rw [hdisp], by simp [Job.isSearch, hcond]⟩
  · rw [if_neg hcond] at hdisp
    exact ⟨_, by rw [hdisp], by simp [Job.isSearch, hcond]⟩

/-- C7 witness: the dispatch-type equivalence at a concrete empty-hash track. -/
theorem C7_witness :
    ∃ job, (requestPixmap envX stReady infoC6 szNull false false).2.2.2 = some job ∧
      (job.isSearch = true ↔
        ((pendingOverride stReady infoC6).hash = "" ∨
         ((pendingOverride stReady infoC6).coverLocation ≠ "ID3TAG" ∧
          envX.fileExists (pendingOverride stReady infoC6).coverLocation = false))) :=
  C7_thm envX stReady infoC6 szNull false (by decide) (by decide) (by decide) (by decide)

/-- C8: a search job on a track with a non-null embedded cover yields
location = the embedded sentinel and the embedded image resized to the max
bound (then cropped when a target size is requested), and its call trace is
the embedded extraction alone — the directory search is never consulted. -/
theorem C8_thm (env : Env) (ci : CoverArtInfo) (size : QSize) (ir : Bool) (d : Nat)
    (h : env.extractEmbeddedCover ci.trackLocation = some d) :
    (searchImage env ci size ir).1.coverLocation = "ID3TAG" ∧
    (searchImage env ci size ir).1.img =
      (if size.isNull then some (env.resizeData d kMaxCoverSize)
       else some (env.cropData (env.resizeData d kMaxCoverSize) size)) ∧
    (searchImage env ci size ir).2 = [Event.extractEmbeddedCover ci.trackLocation] := by
  by_cases hsz : size.isNull = true
  all_goals simp [searchImage, h, hsz, maybeResizeImage, cropImage]

/-- C8 witness: the embedded-first property at a concrete embedded cover. -/
theorem C8_witness :
    (searchImage envEmb ciX szNull false).1.coverLocation = "ID3TAG" ∧
    (searchImage envEmb ciX szNull false).1.img =
      (if szNull.isNull then some (envEmb.resizeData 9 kMaxCoverSize)
       else some (envEmb.cropData (envEmb.resizeData 9 kMaxCoverSize) szNull)) ∧
    (searchImage envEmb ciX szNull false).2 =
      [Event.extractEmbeddedCover ciX.trackLocation] :=
  C8_thm envEmb ciX szNull false 9 (by decide)

/-- C10: requestPixmap validates only the metadata-store collaborator, so with
the track store unset it still dispatches a job and marks the track in
flight, while changeCoverArt under the same state rejects immediately. -/
theorem C10_thm (env : Env) (st : CacheState) (info : CoverInfo) (size : QSize)
    (ir : Bool) (loc : Loc)
    (h1 : 1 ≤ info.trackId) (h2 : st.coverArtDAO = true) (h3 : st.trackDAO = false)
    (h4 : info.trackId ∉ st.runningIds)
    (hmiss : st.pixmapCache.lookup (cacheKeyFor (pendingOverride st info).hash size) = none) :
    ((requestPixmap env st info size false ir).2.2.2.isSome = true ∧
     (requestPixmap env st info size false ir).2.1.runningIds =
       info.trackId :: st.runningIds) ∧
    changeCoverArt env st info.trackId loc = (false, st, []) := by
  have hdisp := requestPixmap_dispatch env st info size ir h1 h2 h4 hmiss
  constructor
  · by_cases hcond : (pendingOverride st info).hash = "" ∨
        ((pendingOverride st info).coverLocation ≠ "ID3TAG" ∧
         env.fileExists (pendingOverride st info).coverLocation = false)
    · rw [if_pos hcond] at hdisp
      rw [hdisp]
      exact ⟨rfl, by simp [pendingOverride_trackId]⟩
    · rw [if_neg hcond] at hdisp
      rw [hdisp]
      exact ⟨rfl, by simp [pendingOverride_trackId]⟩
  · unfold changeCoverArt
    rw [if_pos (Or.inr (Or.inr h3))]

/-- C10 witness: the asymmetry at a concrete state with the track store unset. -/
theorem C10_witness :
    ((requestPixmap envX stNoTrackDAO infoC6 szNull false false).2.2.2.isSome = true ∧
     (requestPixmap envX stNoTrackDAO infoC6 szNull false false).2.1.runningIds =
       infoC6.trackId :: stNoTrackDAO.runningIds) ∧
    changeCoverArt envX stNoTrackDAO infoC6.trackId "c.png" =
      (false, stNoTrackDAO, []) :=
  C10_thm envX stNoTrackDAO infoC6 szNull false "c.png" (by decide) (by decide)
    (by decide) (by decide) (by decide)

/-- C1: the claim fails on the code.  With both collaborators set, track 5 and
a location decoding to a non-null image, changeCoverArt succeeds but stores
the bitmap under the bare hash string "h7", under which the natural-size
composite key lookup misses; the subsequent requestImage for the same hash
with a null target size therefore does not find it and dispatches a job. -/
theorem C1_bug_eval :
    (changeCoverArt envX stReady 5 "c.png").1 = true ∧
    (changeCoverArt envX stReady 5 "c.png").2.1.pixmapCache = [("h7", some 7)] ∧
    (changeCoverArt envX stReady 5 "c.png").2.1.pixmapCache.lookup
        (cacheKeyFor "h7" szNull) = none ∧
    (requestPixmap envX (changeCoverArt envX stReady 5 "c.png").2.1 infoX
        szNull false false).1 = none ∧
    ((requestPixmap envX (changeCoverArt envX stReady 5 "c.png").2.1 infoX
        szNull false false).2.2.2).isSome = true := by decide

end CoverArt
